import Mathlib

/-!
Verification of the in-browser sensor/health simulator of the leak-detection
dashboard (`frontend/src/contexts/SensorContext.jsx`).

Shallow embedding conventions:
* JavaScript numbers are modelled as rationals (`ℚ`); the `Math.sin` / `Math.cos`
  values and every `Math.random()` draw are explicit parameters, constrained to
  `[-1, 1]` respectively `[0, 1)` where a claim needs those bounds.
* A history entry (`DataPoint`) carries `temp` and `corrosion` as `Option ℚ`:
  `none` models a field that is absent from the JavaScript object (reading an
  absent field and adding a number to it yields NaN, modelled by `Option.map`).
* The React state of `SensorProvider` is a `SimState`; the `setInterval`
  callback is the `tick` function, and pausing/resuming (`isLive`) is modelled
  by an explicit event step relation `step`.
-/

namespace SensorSim

/-- A pipeline sensor, as in the `INITIAL_SENSORS` literal of the source. -/
structure Sensor where
  id : String
  name : String
  status : String
  lat : ℚ
  lng : ℚ
  location : String
  corrosion : ℚ
deriving DecidableEq

/-- The fixed sensor list `INITIAL_SENSORS` from the source. -/
def INITIAL_SENSORS : List Sensor :=
  [⟨"SENSOR_A", "Sensor A", "normal", 51.505, -0.15, "Pipeline Segment 1", 0.042⟩,
   ⟨"SENSOR_B", "Sensor B", "normal", 51.508, -0.12, "Pipeline Segment 2", 0.045⟩,
   ⟨"SENSOR_C", "Sensor C", "normal", 51.512, -0.09, "Pipeline Segment 3", 0.125⟩,
   ⟨"SENSOR_D", "Sensor D", "normal", 51.509, -0.06, "Pipeline Segment 4", 0.148⟩,
   ⟨"SENSOR_E", "Sensor E", "normal", 51.506, -0.03, "Pipeline Segment 5", 0.052⟩]

/-- The segment-health map `{'A-B', 'B-C', 'C-D', 'D-E'}` of the source. -/
structure SegmentHealth where
  AB : ℚ
  BC : ℚ
  CD : ℚ
  DE : ℚ
deriving DecidableEq

/-- The seed values of `segmentHealth` in the source. -/
def seedSegmentHealth : SegmentHealth :=
  { AB := 100, BC := 99.8, CD := 88.5, DE := 99.5 }

/-- Tick part 2 of the source: `setSegmentHealth(prev => ({...prev}))`, a
shallow copy, hence the identity on the value. -/
def segmentHealthStep (prev : SegmentHealth) : SegmentHealth := prev

/-- The threshold classification of the tick:
`if (h < 75) critical; else if (h < 90) warning; else normal`. -/
def statusOf (h : ℚ) : String :=
  if h < 75 then "critical" else if h < 90 then "warning" else "normal"

/-- The sequential `if` chain of the tick choosing `healthToCheck` for a
sensor id (a later matching `if` overwrites an earlier one, as in the source). -/
def healthFor (sh : SegmentHealth) (sid : String) : ℚ :=
  let h0 : ℚ := 100
  let h1 := if sid = "SENSOR_A" ∨ sid = "SENSOR_B" then sh.AB else h0
  let h2 := if sid = "SENSOR_B" ∨ sid = "SENSOR_C" then sh.BC else h1
  let h3 := if sid = "SENSOR_C" ∨ sid = "SENSOR_D" then sh.CD else h2
  let h4 := if sid = "SENSOR_E" then sh.DE else h3
  h4

/-- Tick part 3 of the source: map over the sensors, rederiving each status. -/
def updateSensors (sh : SegmentHealth) (sensors : List Sensor) : List Sensor :=
  sensors.map (fun s => { s with status := statusOf (healthFor sh s.id) })

/-- Tick part 4 of the source: `(avg * 0.7) + (minVal * 0.3)` over
`Object.values(segmentHealth)` (insertion order `A-B, B-C, C-D, D-E`). -/
def recompute (sh : SegmentHealth) : ℚ :=
  let values : List ℚ := [sh.AB, sh.BC, sh.CD, sh.DE]
  let minVal : ℚ := match values with
    | [] => 0
    | x :: xs => xs.foldl min x
  let avg : ℚ := values.foldl (· + ·) 0 / (values.length : ℚ)
  avg * 0.7 + minVal * 0.3

/-- One entry of the telemetry history. `temp` and `corrosion` are optional
because the JavaScript objects do not always carry those fields: the
empty-history fallback has no `temp`, and the tick's `newDataPoint` has no
`corrosion`; `none` stands for the absent field. -/
structure DataPoint where
  time : String
  pressure : ℚ
  flow : ℚ
  temp : Option ℚ
  vibration : ℚ
  corrosion : Option ℚ
deriving DecidableEq

/-- One entry of the initial mock history (30 of these are seeded):
`{time: t, pressure: 80 + rnd, flow: 45 + rnd, temp: 22, vibration: 0.1, corrosion: 0.05}`. -/
def initDataPoint (t : String) (r1 r2 : ℚ) : DataPoint :=
  { time := t, pressure := 80 + r1, flow := 45 + r2,
    temp := some 22, vibration := 0.1, corrosion := some 0.05 }

/-- The nondeterministic inputs of one tick: the time label, the values of
`Math.sin(timeOffset)`, `Math.cos(timeOffset)` and `Math.sin(timeOffset * 2)`,
and the two `Math.random()` draws of the `newDataPoint`. -/
structure TickInput where
  timeLabel : String
  s : ℚ
  c : ℚ
  s2 : ℚ
  r1 : ℚ
  r2 : ℚ
deriving DecidableEq

/-- What JavaScript guarantees about the tick inputs: sine/cosine values lie in
`[-1, 1]` and `Math.random()` draws lie in `[0, 1)`. -/
def TickInput.Valid (a : TickInput) : Prop :=
  -1 ≤ a.s ∧ a.s ≤ 1 ∧ -1 ≤ a.c ∧ a.c ≤ 1 ∧ -1 ≤ a.s2 ∧ a.s2 ≤ 1 ∧
  0 ≤ a.r1 ∧ a.r1 < 1 ∧ 0 ≤ a.r2 ∧ a.r2 < 1

/-- `globalPressure = 80 + Math.sin(timeOffset) * 5` of the tick. -/
def globalPressure (a : TickInput) : ℚ := 80 + a.s * 5

/-- `globalFlow = 45 + Math.cos(timeOffset) * 3` of the tick. -/
def globalFlow (a : TickInput) : ℚ := 45 + a.c * 3

/-- The `newDataPoint` built by tick part 5 of the source. Note: it has no
`corrosion` field. -/
def tickDataPoint (sh : SegmentHealth) (a : TickInput) : DataPoint :=
  let deterioration : ℚ := (100 - sh.CD) / 100
  { time := a.timeLabel,
    pressure := globalPressure a + a.r1,
    flow := globalFlow a - deterioration * 5 + a.r2,
    temp := some (22 + a.s2),
    vibration := 0.1 + deterioration * 0.5,
    corrosion := none }

/-- The history update of tick part 5: append, then
`if (newHist.length > 30) return newHist.slice(newHist.length - 30)`. -/
def histStep (prev : List DataPoint) (d : DataPoint) : List DataPoint :=
  let newHist := prev ++ [d]
  if 30 < newHist.length then newHist.drop (newHist.length - 30) else newHist

/-- `INITIAL_SENSORS.findIndex(s => s.id === sensorId)`: first matching
index, `-1` when absent. -/
def findIndex (sid : String) : List Sensor → Int
  | [] => -1
  | s :: rest =>
    if s.id = sid then 0
    else
      let r := findIndex sid rest
      if r = -1 then -1 else r + 1

/-- `INITIAL_SENSORS[idx]` for a possibly negative JavaScript index:
`none` models `undefined`. -/
def sensorAt? (l : List Sensor) (i : Int) : Option Sensor :=
  if i < 0 then none else l.get? i.toNat

/-- The `Math.random()` draws consumed by one `getSensorReading` call:
the vibration, temperature, corrosion and final pressure noises. -/
structure ReadNoise where
  rv : ℚ
  rt : ℚ
  rc : ℚ
  rp : ℚ
deriving DecidableEq

/-- `Math.random()` draws lie in `[0, 1)`. -/
def ReadNoise.Valid (nz : ReadNoise) : Prop :=
  0 ≤ nz.rv ∧ nz.rv < 1 ∧ 0 ≤ nz.rt ∧ nz.rt < 1 ∧
  0 ≤ nz.rc ∧ nz.rc < 1 ∧ 0 ≤ nz.rp ∧ nz.rp < 1

/-- The `|| {pressure: 80, flow: 45, vibration: 0.1}` fallback used when the
history is empty. It carries neither `temp` nor `corrosion`. -/
def fallbackLatest : DataPoint :=
  { time := "", pressure := 80, flow := 45, temp := none, vibration := 0.1, corrosion := none }

/-- `history[history.length - 1] || fallback`: the latest history entry, or the
fallback when the history is empty. -/
def latestOf (history : List DataPoint) : DataPoint :=
  (history.getLast?).getD fallbackLatest

/-- `getSensorReading(sensorId)` of the source: take the latest history entry
(or the fallback), subtract the distance-proportional pressure loss, apply the
per-sensor leak-scenario deviations, overwrite corrosion with the static
baseline plus microscopic noise, and add the final local pressure noise. -/
def getSensorReading (sid : String) (history : List DataPoint) (nz : ReadNoise) : DataPoint :=
  let latest := latestOf history
  let idx : Int := findIndex sid INITIAL_SENSORS
  let distanceLoss : ℚ := (idx : ℚ) * 0.5
  let val1 : DataPoint := { latest with pressure := latest.pressure - distanceLoss }
  let val2 : DataPoint :=
    if sid = "SENSOR_C" then
      { val1 with
        flow := val1.flow * 1.15,
        pressure := val1.pressure * 0.99,
        vibration := val1.vibration * 1.3 + nz.rv * 0.05,
        temp := val1.temp.map (fun t => t + (nz.rt * 0.02 - 0.01)) }
    else if sid = "SENSOR_D" then
      { val1 with
        flow := val1.flow * 0.80,
        pressure := val1.pressure * 0.85,
        vibration := val1.vibration * 1.1 + nz.rv * 0.02,
        temp := val1.temp.map (fun t => t + (nz.rt * 0.04 - 0.02)) }
    else if sid = "SENSOR_E" then
      { val1 with
        pressure := val1.pressure * 0.84,
        flow := val1.flow * 0.79,
        vibration := val1.vibration + nz.rv * 0.01,
        temp := val1.temp.map (fun t => t + (nz.rt * 0.01 - 0.005)) }
    else
      { val1 with
        vibration := val1.vibration + nz.rv * 0.005,
        temp := val1.temp.map (fun t => t + (nz.rt * 0.01 - 0.005)) }
  let baseCorrosion : ℚ :=
    match sensorAt? INITIAL_SENSORS idx with
    | some s => if s.corrosion = 0 then 0.05 else s.corrosion
    | none => 0.05
  let val3 : DataPoint := { val2 with corrosion := some (baseCorrosion + (nz.rc * 0.00001 - 0.000005)) }
  { val3 with pressure := val3.pressure + (nz.rp * 0.2 - 0.1) }

/-- The React state of `SensorProvider`. -/
structure SimState where
  sensors : List Sensor
  history : List DataPoint
  systemHealth : ℚ
  segmentHealth : SegmentHealth
  isLive : Bool
deriving DecidableEq

/-- The initial provider state: `INITIAL_SENSORS`, a mock history `h0` (the
source seeds 30 `initDataPoint` entries), `systemHealth 100`, the seeded
segment health, live. -/
def initState (h0 : List DataPoint) : SimState :=
  { sensors := INITIAL_SENSORS, history := h0, systemHealth := 100,
    segmentHealth := seedSegmentHealth, isLive := true }

/-- The body of the `setInterval` callback: parts 2-5 of the source tick. -/
def tick (st : SimState) (a : TickInput) : SimState :=
  { st with
    segmentHealth := segmentHealthStep st.segmentHealth,
    sensors := updateSensors st.segmentHealth st.sensors,
    systemHealth := recompute st.segmentHealth,
    history := histStep st.history (tickDataPoint st.segmentHealth a) }

/-- External events of the provider: toggling `isLive`, or a timer firing.
When `isLive` is false the effect returns early and no interval exists, so a
timer firing changes nothing. -/
inductive Event where
  | setLive (b : Bool)
  | timerFire (a : TickInput)
deriving DecidableEq

/-- The event step: the `isLive` guard of the effect. -/
def step (st : SimState) (e : Event) : SimState :=
  match e with
  | .setLive b => { st with isLive := b }
  | .timerFire a => if st.isLive then tick st a else st

/-! ### Helper lemmas about the sensor list and `findIndex` -/

theorem findIndex_A : findIndex "SENSOR_A" INITIAL_SENSORS = 0 := by decide

theorem findIndex_B : findIndex "SENSOR_B" INITIAL_SENSORS = 1 := by decide

theorem findIndex_C : findIndex "SENSOR_C" INITIAL_SENSORS = 2 := by decide

theorem findIndex_D : findIndex "SENSOR_D" INITIAL_SENSORS = 3 := by decide

theorem findIndex_E : findIndex "SENSOR_E" INITIAL_SENSORS = 4 := by decide

theorem findIndex_eq_neg_one :
    ∀ (l : List Sensor) (sid : String), (∀ s ∈ l, s.id ≠ sid) → findIndex sid l = -1 := by
  intro l sid
  induction l with
  | nil => intro _; rfl
  | cons s rest ih =>
    intro h
    have hs : s.id ≠ sid := h s (List.mem_cons_self s rest)
    have hr : findIndex sid rest = -1 := ih (fun x hx => h x (List.mem_cons_of_mem s hx))
    simp [findIndex, hs, hr]

theorem findIndex_range :
    ∀ (l : List Sensor) (sid : String),
      findIndex sid l = -1 ∨ (0 ≤ findIndex sid l ∧ findIndex sid l < (l.length : Int)) := by
  intro l sid
  induction l with
  | nil => exact Or.inl rfl
  | cons s rest ih =>
    by_cases hs : s.id = sid
    · right
      simp [findIndex, hs]
    · rcases ih with h1 | h2
      · left
        simp [findIndex, hs, h1]
      · right
        have hne : ¬ findIndex sid rest = -1 := by omega
        simp only [findIndex, if_neg hs, if_neg hne, List.length_cons]
        push_cast
        omega

/-! ### Characterizations of `getSensorReading` per sensor id -/

theorem reading_A_eq (history : List DataPoint) (nz : ReadNoise) :
    getSensorReading "SENSOR_A" history nz =
      { time := (latestOf history).time,
        pressure := (latestOf history).pressure + (nz.rp * 0.2 - 0.1),
        flow := (latestOf history).flow,
        temp := (latestOf history).temp.map (fun t => t + (nz.rt * 0.01 - 0.005)),
        vibration := (latestOf history).vibration + nz.rv * 0.005,
        corrosion := some (0.042 + (nz.rc * 0.00001 - 0.000005)) } := by
  simp only [getSensorReading, findIndex_A, sensorAt?]
  simp [INITIAL_SENSORS, DataPoint.mk.injEq]
  norm_num

theorem reading_B_eq (history : List DataPoint) (nz : ReadNoise) :
    getSensorReading "SENSOR_B" history nz =
      { time := (latestOf history).time,
        pressure := ((latestOf history).pressure - 0.5) + (nz.rp * 0.2 - 0.1),
        flow := (latestOf history).flow,
        temp := (latestOf history).temp.map (fun t => t + (nz.rt * 0.01 - 0.005)),
        vibration := (latestOf history).vibration + nz.rv * 0.005,
        corrosion := some (0.045 + (nz.rc * 0.00001 - 0.000005)) } := by
  simp only [getSensorReading, findIndex_B, sensorAt?]
  simp [INITIAL_SENSORS, DataPoint.mk.injEq]
  norm_num

theorem reading_C_eq (history : List DataPoint) (nz : ReadNoise) :
    getSensorReading "SENSOR_C" history nz =
      { time := (latestOf history).time,
        pressure := ((latestOf history).pressure - 1) * 0.99 + (nz.rp * 0.2 - 0.1),
        flow := (latestOf history).flow * 1.15,
        temp := (latestOf history).temp.map (fun t => t + (nz.rt * 0.02 - 0.01)),
        vibration := (latestOf history).vibration * 1.3 + nz.rv * 0.05,
        corrosion := some (0.125 + (nz.rc * 0.00001 - 0.000005)) } := by
  simp only [getSensorReading, findIndex_C, sensorAt?]
  simp [INITIAL_SENSORS, DataPoint.mk.injEq]
  norm_num

theorem reading_D_eq (history : List DataPoint) (nz : ReadNoise) :
    getSensorReading "SENSOR_D" history nz =
      { time := (latestOf history).time,
        pressure := ((latestOf history).pressure - 1.5) * 0.85 + (nz.rp * 0.2 - 0.1),
        flow := (latestOf history).flow * 0.80,
        temp := (latestOf history).temp.map (fun t => t + (nz.rt * 0.04 - 0.02)),
        vibration := (latestOf history).vibration * 1.1 + nz.rv * 0.02,
        corrosion := some (0.148 + (nz.rc * 0.00001 - 0.000005)) } := by
  simp only [getSensorReading, findIndex_D, sensorAt?]
  simp [INITIAL_SENSORS, DataPoint.mk.injEq]
  norm_num

theorem reading_E_eq (history : List DataPoint) (nz : ReadNoise) :
    getSensorReading "SENSOR_E" history nz =
      { time := (latestOf history).time,
        pressure := ((latestOf history).pressure - 2) * 0.84 + (nz.rp * 0.2 - 0.1),
        flow := (latestOf history).flow * 0.79,
        temp := (latestOf history).temp.map (fun t => t + (nz.rt * 0.01 - 0.005)),
        vibration := (latestOf history).vibration + nz.rv * 0.01,
        corrosion := some (0.052 + (nz.rc * 0.00001 - 0.000005)) } := by
  simp only [getSensorReading, findIndex_E, sensorAt?]
  simp [INITIAL_SENSORS, DataPoint.mk.injEq]
  norm_num

theorem reading_unknown_eq (sid : String) (history : List DataPoint) (nz : ReadNoise)
    (hmem : sid ∉ INITIAL_SENSORS.map Sensor.id) :
    getSensorReading sid history nz =
      { time := (latestOf history).time,
        pressure := ((latestOf history).pressure + 0.5) + (nz.rp * 0.2 - 0.1),
        flow := (latestOf history).flow,
        temp := (latestOf history).temp.map (fun t => t + (nz.rt * 0.01 - 0.005)),
        vibration := (latestOf history).vibration + nz.rv * 0.005,
        corrosion := some (0.05 + (nz.rc * 0.00001 - 0.000005)) } := by
  have hids : ∀ s ∈ INITIAL_SENSORS, s.id ≠ sid := by
    intro s hs he
    exact hmem (List.mem_map.mpr ⟨s, hs, he⟩)
  have hfi : findIndex sid INITIAL_SENSORS = -1 := findIndex_eq_neg_one _ _ hids
  simp [INITIAL_SENSORS] at hmem
  push_neg at hmem
  obtain ⟨hA, hB, hC, hD, hE⟩ := hmem
  simp only [getSensorReading, hfi, sensorAt?]
  rw [if_neg hC, if_neg hD, if_neg hE]
  simp [DataPoint.mk.injEq]

/-! ### Characterization of `statusOf` -/

theorem statusOf_eq_critical (h : ℚ) : statusOf h = "critical" ↔ h < 75 := by
  unfold statusOf
  split_ifs with h1 h2
  · simp [h1]
  · exact iff_of_false (by simp) h1
  · exact iff_of_false (by simp) h1

theorem statusOf_eq_warning (h : ℚ) : statusOf h = "warning" ↔ 75 ≤ h ∧ h < 90 := by
  unfold statusOf
  split_ifs with h1 h2
  · exact iff_of_false (by simp) (fun hc => (not_le.mpr h1) hc.1)
  · exact iff_of_true rfl ⟨not_lt.mp h1, h2⟩
  · exact iff_of_false (by simp) (fun hc => h2 hc.2)

theorem statusOf_eq_normal (h : ℚ) : statusOf h = "normal" ↔ 90 ≤ h := by
  unfold statusOf
  split_ifs with h1 h2
  · exact iff_of_false (by simp) (not_le.mpr (by linarith))
  · exact iff_of_false (by simp) (not_le.mpr h2)
  · exact iff_of_true rfl (not_lt.mp h2)

/-! ### Helper lemmas about the history buffer -/

theorem histStep_eq_drop (prev : List DataPoint) (d : DataPoint) :
    histStep prev d = (prev ++ [d]).drop (prev.length + 1 - 30) := by
  unfold histStep
  by_cases h30 : 30 < (prev ++ [d]).length
  · rw [if_pos h30]
    simp
  · rw [if_neg h30]
    simp only [List.length_append, List.length_singleton] at h30
    rw [Nat.sub_eq_zero_of_le (by omega), List.drop_zero]

theorem histStep_length (prev : List DataPoint) (d : DataPoint) :
    (histStep prev d).length = min (prev.length + 1) 30 := by
  rw [histStep_eq_drop, List.length_drop]
  simp only [List.length_append, List.length_singleton]
  omega

theorem foldl_histStep (ds : List DataPoint) :
    ∀ init : List DataPoint, init.length ≤ 30 →
      List.foldl histStep init ds = (init ++ ds).drop (init.length + ds.length - 30) := by
  induction ds with
  | nil =>
    intro init h
    simp [Nat.sub_eq_zero_of_le h]
  | cons d rest ih =>
    intro init h
    have hXlen : (histStep init d).length ≤ 30 := by
      rw [histStep_length]; omega
    show List.foldl histStep (histStep init d) rest = _
    rw [ih _ hXlen, histStep_eq_drop]
    simp only [List.length_drop, List.length_append, List.length_singleton]
    rw [← List.drop_append_of_le_length (by simp; omega), List.drop_drop]
    rw [show init ++ [d] ++ rest = init ++ d :: rest by simp]
    congr 1
    simp only [List.length_cons]
    omega

/-! ### Claim theorems -/

/-- C1: on a tick, each sensor's derived status is `critical` iff its relevant
segment health `h` satisfies `h < 75`, `warning` iff `75 ≤ h < 90`, and
`normal` otherwise; verified also at the boundary values 74.9, 75.0, 89.9
and 90.0. -/
theorem c1_sensor_status_thresholds :
    (∀ (sh : SegmentHealth) (sensors : List Sensor) (s : Sensor),
        s ∈ updateSensors sh sensors →
          ((s.status = "critical" ↔ healthFor sh s.id < 75) ∧
           (s.status = "warning" ↔ 75 ≤ healthFor sh s.id ∧ healthFor sh s.id < 90) ∧
           (s.status = "normal" ↔ 90 ≤ healthFor sh s.id))) ∧
    statusOf 74.9 = "critical" ∧ statusOf 75 = "warning" ∧
    statusOf 89.9 = "warning" ∧ statusOf 90 = "normal" := by
  refine ⟨?_, ?_, ?_, ?_, ?_⟩
  · intro sh sensors s hs
    simp only [updateSensors] at hs
    obtain ⟨s0, _hs0, rfl⟩ := List.mem_map.mp hs
    exact ⟨statusOf_eq_critical _, statusOf_eq_warning _, statusOf_eq_normal _⟩
  · rw [statusOf_eq_critical]; norm_num
  · rw [statusOf_eq_warning]; norm_num
  · rw [statusOf_eq_warning]; norm_num
  · rw [statusOf_eq_normal]

/-- Witness for C1: the first conjunct applied to the seeded segment healths,
the initial sensor list, and the updated Sensor C record (its relevant segment
is C-D, seeded at 88.5). -/
theorem c1_sensor_status_thresholds_witness :
    (statusOf (healthFor seedSegmentHealth "SENSOR_C") = "critical" ↔
        healthFor seedSegmentHealth "SENSOR_C" < 75) ∧
    (statusOf (healthFor seedSegmentHealth "SENSOR_C") = "warning" ↔
        75 ≤ healthFor seedSegmentHealth "SENSOR_C" ∧
        healthFor seedSegmentHealth "SENSOR_C" < 90) ∧
    (statusOf (healthFor seedSegmentHealth "SENSOR_C") = "normal" ↔
        90 ≤ healthFor seedSegmentHealth "SENSOR_C") :=
  c1_sensor_status_thresholds.1 seedSegmentHealth INITIAL_SENSORS
    { id := "SENSOR_C", name := "Sensor C",
      status := statusOf (healthFor seedSegmentHealth "SENSOR_C"),
      lat := 51.512, lng := -0.09, location := "Pipeline Segment 3", corrosion := 0.125 }
    (by simp [updateSensors, INITIAL_SENSORS])

/-- C2: the system health recomputed on a tick equals exactly
`0.7 * mean(segment values) + 0.3 * min(segment values)`, and on the seeded
segment values {100, 99.8, 88.5, 99.5} it equals 94.415. -/
theorem c2_system_health_formula :
    (∀ sh : SegmentHealth,
        recompute sh =
          0.7 * ((sh.AB + sh.BC + sh.CD + sh.DE) / 4) +
          0.3 * min (min (min sh.AB sh.BC) sh.CD) sh.DE) ∧
    recompute seedSegmentHealth = 94.415 := by
  constructor
  · intro sh
    simp only [recompute, List.foldl, List.length]
    push_cast
    ring
  · simp only [recompute, seedSegmentHealth, List.foldl, List.length]
    norm_num [min_def]

/-- C3: starting from a history of at most 30 entries, a tick never leaves
more than 30; and iterating the tick history update from the 30-entry seeded
history over any sequence of at least 30 appended points leaves exactly the
30 most recent appended points, in append order. -/
theorem c3_history_bounded :
    (∀ (prev : List DataPoint) (d : DataPoint),
        prev.length ≤ 30 → (histStep prev d).length ≤ 30) ∧
    (∀ (init ds : List DataPoint),
        init.length = 30 → 30 ≤ ds.length →
        List.foldl histStep init ds = ds.drop (ds.length - 30)) := by
  constructor
  · intro prev d h
    rw [histStep_length]
    omega
  · intro init ds h30 hlen
    rw [foldl_histStep ds init (by omega), h30]
    rw [show 30 + ds.length - 30 = ds.length by omega]
    conv_lhs => rw [show ds.length = init.length + (ds.length - 30) from by omega]
    exact List.drop_append (ds.length - 30)

/-- Witness for C3: a concrete 30-entry history and 31 appended points. -/
theorem c3_history_bounded_witness :
    (histStep (List.replicate 30 fallbackLatest) fallbackLatest).length ≤ 30 ∧
    List.foldl histStep (List.replicate 30 fallbackLatest)
        (List.replicate 31 fallbackLatest) =
      (List.replicate 31 fallbackLatest).drop (31 - 30) :=
  ⟨c3_history_bounded.1 (List.replicate 30 fallbackLatest) fallbackLatest (by simp),
   by
    have h := c3_history_bounded.2 (List.replicate 30 fallbackLatest)
      (List.replicate 31 fallbackLatest) (by simp) (by simp)
    simpa using h⟩

/-- C4 counterexample: the data point appended to the history by a tick at a
concrete input carries no corrosion field (`none` models the absent field of
the JavaScript object literal). -/
theorem c4_appended_entry_counterexample :
    (tickDataPoint seedSegmentHealth
        { timeLabel := "12:00:00", s := 0, c := 0, s2 := 0, r1 := 0, r2 := 0 }).corrosion
      = none := rfl

/-- C4 amended: every entry appended by a tick is a timestamped tuple carrying
pressure, flow, temperature and vibration values, but no corrosion field;
only the 30 seeded initial entries carry corrosion (0.05). -/
theorem c4_appended_entry_fields :
    (∀ (sh : SegmentHealth) (a : TickInput),
        (tickDataPoint sh a).time = a.timeLabel ∧
        (tickDataPoint sh a).pressure = globalPressure a + a.r1 ∧
        (tickDataPoint sh a).flow = globalFlow a - (100 - sh.CD) / 100 * 5 + a.r2 ∧
        (tickDataPoint sh a).temp = some (22 + a.s2) ∧
        (tickDataPoint sh a).vibration = 0.1 + (100 - sh.CD) / 100 * 0.5 ∧
        (tickDataPoint sh a).corrosion = none) ∧
    (∀ (t : String) (r1 r2 : ℚ), (initDataPoint t r1 r2).corrosion = some 0.05) := by
  constructor
  · intro sh a
    exact ⟨rfl, rfl, rfl, rfl, rfl, rfl⟩
  · intro t r1 r2
    rfl

/-- C5: for every tick and every admissible value of the injected random
draws, the reading returned for the downstream leak sensor SENSOR_D has flow
strictly less than that tick's global flow sample (the flow ×0.80 rule). -/
theorem c5_sensor_d_flow_lt_global (a : TickInput) (hist : List DataPoint) (nz : ReadNoise)
    (ha : a.Valid)
    (hl : hist.getLast? = some (tickDataPoint seedSegmentHealth a)) :
    (getSensorReading "SENSOR_D" hist nz).flow < globalFlow a := by
  rw [reading_D_eq]
  have hlat : latestOf hist = tickDataPoint seedSegmentHealth a := by
    rw [latestOf, hl]
    rfl
  rw [hlat]
  obtain ⟨_, _, hc1, hc2, _, _, _, _, hr2a, hr2b⟩ := ha
  simp only [tickDataPoint, globalFlow, seedSegmentHealth]
  norm_num
  linarith

/-- Witness for C5 at a concrete tick input, history and noise. -/
theorem c5_sensor_d_flow_lt_global_witness :
    (getSensorReading "SENSOR_D"
        [tickDataPoint seedSegmentHealth
            { timeLabel := "t", s := 0, c := 0, s2 := 0, r1 := 0, r2 := 0 }]
        { rv := 0, rt := 0, rc := 0, rp := 0 }).flow <
      globalFlow { timeLabel := "t", s := 0, c := 0, s2 := 0, r1 := 0, r2 := 0 } :=
  c5_sensor_d_flow_lt_global _ _ _ (by norm_num [TickInput.Valid]) rfl

/-- Any event leaves the segment health values unchanged (the tick performs a
shallow copy only). -/
theorem step_segmentHealth (st : SimState) (e : Event) :
    (step st e).segmentHealth = st.segmentHealth := by
  cases e with
  | setLive b => rfl
  | timerFire a =>
    simp only [step]
    by_cases h : st.isLive
    · rw [if_pos h]
      rfl
    · rw [if_neg h]

/-- C6: after any sequence of events from the initial state, the segment
health values equal the fixed seeds {A-B: 100, B-C: 99.8, C-D: 88.5,
D-E: 99.5}, and those values lie within [0, 100]. -/
theorem c6_segment_health_static :
    (∀ (h0 : List DataPoint) (events : List Event),
        (List.foldl step (initState h0) events).segmentHealth = seedSegmentHealth) ∧
    (0 ≤ seedSegmentHealth.AB ∧ seedSegmentHealth.AB ≤ 100 ∧
     0 ≤ seedSegmentHealth.BC ∧ seedSegmentHealth.BC ≤ 100 ∧
     0 ≤ seedSegmentHealth.CD ∧ seedSegmentHealth.CD ≤ 100 ∧
     0 ≤ seedSegmentHealth.DE ∧ seedSegmentHealth.DE ≤ 100) := by
  constructor
  · have key : ∀ (es : List Event) (st : SimState),
        (List.foldl step st es).segmentHealth = st.segmentHealth := by
      intro es
      induction es with
      | nil => intro st; rfl
      | cons e rest ih =>
        intro st
        rw [List.foldl_cons, ih, step_segmentHealth]
    intro h0 events
    rw [key]
    rfl
  · norm_num [seedSegmentHealth]

/-- C7: while paused (`isLive = false`) a timer firing appends nothing to the
history — over any run of paused fires the history is unchanged; after
`isLive` is set back to true the next fire appends through the normal history
update; and no single event ever appends more than one entry, so no ticks
skipped during a pause are replayed on resume. -/
theorem c7_pause_semantics :
    (∀ (st : SimState) (a : TickInput),
        st.isLive = false → (step st (Event.timerFire a)).history = st.history) ∧
    (∀ (st : SimState) (fires : List TickInput),
        st.isLive = false →
        (List.foldl step st (fires.map Event.timerFire)).history = st.history) ∧
    (∀ (st : SimState) (a : TickInput),
        (step (step st (Event.setLive true)) (Event.timerFire a)).history =
          histStep st.history (tickDataPoint st.segmentHealth a)) ∧
    (∀ (st : SimState) (e : Event),
        (step st e).history.length ≤ st.history.length + 1) := by
  refine ⟨?_, ?_, ?_, ?_⟩
  · intro st a h
    simp [step, h]
  · intro st fires
    induction fires generalizing st with
    | nil => intro _; rfl
    | cons a rest ih =>
      intro h
      rw [List.map_cons, List.foldl_cons]
      have hstep : step st (Event.timerFire a) = st := by
        simp [step, h]
      rw [hstep]
      exact ih st h
  · intro st a
    rfl
  · intro st e
    cases e with
    | setLive b => simp [step]
    | timerFire a =>
      simp only [step]
      by_cases h : st.isLive
      · rw [if_pos h]
        show (histStep st.history _).length ≤ _
        rw [histStep_length]
        omega
      · rw [if_neg h]
        omega

/-- Witness for C7: a concrete paused state, one paused fire, and a resume
followed by one fire. -/
theorem c7_pause_semantics_witness :
    ((step { initState [] with isLive := false }
        (Event.timerFire { timeLabel := "t", s := 0, c := 0, s2 := 0, r1 := 0, r2 := 0 })).history =
      ({ initState [] with isLive := false } : SimState).history) ∧
    ((List.foldl step { initState [] with isLive := false }
        ([{ timeLabel := "t", s := 0, c := 0, s2 := 0, r1 := 0, r2 := 0 }].map Event.timerFire)).history =
      ({ initState [] with isLive := false } : SimState).history) ∧
    ((step (step { initState [] with isLive := false } (Event.setLive true))
        (Event.timerFire { timeLabel := "t", s := 0, c := 0, s2 := 0, r1 := 0, r2 := 0 })).history =
      histStep ({ initState [] with isLive := false } : SimState).history
        (tickDataPoint ({ initState [] with isLive := false } : SimState).segmentHealth
          { timeLabel := "t", s := 0, c := 0, s2 := 0, r1 := 0, r2 := 0 })) ∧
    ((step { initState [] with isLive := false }
        (Event.setLive true)).history.length ≤
      ({ initState [] with isLive := false } : SimState).history.length + 1) :=
  ⟨c7_pause_semantics.1 _ _ rfl,
   c7_pause_semantics.2.1 _ _ rfl,
   c7_pause_semantics.2.2.1 _ _,
   c7_pause_semantics.2.2.2 _ _⟩

/-- C8: `getSensorReading` first subtracts the distance pressure loss (0.5 per
position index), then applies the leak adjustments: SENSOR_C (index 2) gets
flow ×1.15 and pressure ×0.99 with vibration not decreased; SENSOR_D (index 3)
gets flow ×0.80 and pressure ×0.85; SENSOR_E (index 4) gets compounding loss,
pressure ×0.84 and flow ×0.79; and the returned corrosion is the sensor's
static baseline plus noise of magnitude at most 0.000005. -/
theorem c8_reading_adjustments (hist : List DataPoint) (latest : DataPoint) (nz : ReadNoise)
    (hlat : latestOf hist = latest) (hnz : nz.Valid) (hv : 0 ≤ latest.vibration) :
    (getSensorReading "SENSOR_C" hist nz).flow = latest.flow * 1.15 ∧
    (getSensorReading "SENSOR_C" hist nz).pressure =
      (latest.pressure - 2 * 0.5) * 0.99 + (nz.rp * 0.2 - 0.1) ∧
    latest.vibration ≤ (getSensorReading "SENSOR_C" hist nz).vibration ∧
    (getSensorReading "SENSOR_D" hist nz).flow = latest.flow * 0.80 ∧
    (getSensorReading "SENSOR_D" hist nz).pressure =
      (latest.pressure - 3 * 0.5) * 0.85 + (nz.rp * 0.2 - 0.1) ∧
    (getSensorReading "SENSOR_E" hist nz).pressure =
      (latest.pressure - 4 * 0.5) * 0.84 + (nz.rp * 0.2 - 0.1) ∧
    (getSensorReading "SENSOR_E" hist nz).flow = latest.flow * 0.79 ∧
    (∃ ε, (getSensorReading "SENSOR_C" hist nz).corrosion = some (0.125 + ε) ∧ |ε| ≤ 0.000005) ∧
    (∃ ε, (getSensorReading "SENSOR_D" hist nz).corrosion = some (0.148 + ε) ∧ |ε| ≤ 0.000005) ∧
    (∃ ε, (getSensorReading "SENSOR_E" hist nz).corrosion = some (0.052 + ε) ∧ |ε| ≤ 0.000005) := by
  obtain ⟨hrv0, hrv1, _, _, hrc0, hrc1, _, _⟩ := hnz
  have hsmall : |nz.rc * 0.00001 - 0.000005| ≤ 0.000005 := by
    rw [abs_le]
    constructor <;> linarith
  refine ⟨?_, ?_, ?_, ?_, ?_, ?_, ?_, ?_, ?_, ?_⟩
  · rw [reading_C_eq, hlat]; try norm_num
  · rw [reading_C_eq, hlat]; try norm_num
  · rw [reading_C_eq, hlat]; dsimp only; linarith
  · rw [reading_D_eq, hlat]; try norm_num
  · rw [reading_D_eq, hlat]; try norm_num
  · rw [reading_E_eq, hlat]; try norm_num
  · rw [reading_E_eq, hlat]; try norm_num
  · rw [reading_C_eq, hlat]; exact ⟨_, rfl, hsmall⟩
  · rw [reading_D_eq, hlat]; exact ⟨_, rfl, hsmall⟩
  · rw [reading_E_eq, hlat]; exact ⟨_, rfl, hsmall⟩

/-- Witness for C8 at the empty history (fallback latest) and zero noise. -/
theorem c8_reading_adjustments_witness :
    (getSensorReading "SENSOR_C" [] ⟨0, 0, 0, 0⟩).flow = fallbackLatest.flow * 1.15 ∧
    (getSensorReading "SENSOR_C" [] ⟨0, 0, 0, 0⟩).pressure =
      (fallbackLatest.pressure - 2 * 0.5) * 0.99 +
        ((⟨0, 0, 0, 0⟩ : ReadNoise).rp * 0.2 - 0.1) ∧
    fallbackLatest.vibration ≤ (getSensorReading "SENSOR_C" [] ⟨0, 0, 0, 0⟩).vibration ∧
    (getSensorReading "SENSOR_D" [] ⟨0, 0, 0, 0⟩).flow = fallbackLatest.flow * 0.80 ∧
    (getSensorReading "SENSOR_D" [] ⟨0, 0, 0, 0⟩).pressure =
      (fallbackLatest.pressure - 3 * 0.5) * 0.85 +
        ((⟨0, 0, 0, 0⟩ : ReadNoise).rp * 0.2 - 0.1) ∧
    (getSensorReading "SENSOR_E" [] ⟨0, 0, 0, 0⟩).pressure =
      (fallbackLatest.pressure - 4 * 0.5) * 0.84 +
        ((⟨0, 0, 0, 0⟩ : ReadNoise).rp * 0.2 - 0.1) ∧
    (getSensorReading "SENSOR_E" [] ⟨0, 0, 0, 0⟩).flow = fallbackLatest.flow * 0.79 ∧
    (∃ ε, (getSensorReading "SENSOR_C" [] ⟨0, 0, 0, 0⟩).corrosion = some (0.125 + ε) ∧
      |ε| ≤ 0.000005) ∧
    (∃ ε, (getSensorReading "SENSOR_D" [] ⟨0, 0, 0, 0⟩).corrosion = some (0.148 + ε) ∧
      |ε| ≤ 0.000005) ∧
    (∃ ε, (getSensorReading "SENSOR_E" [] ⟨0, 0, 0, 0⟩).corrosion = some (0.052 + ε) ∧
      |ε| ≤ 0.000005) :=
  c8_reading_adjustments [] fallbackLatest ⟨0, 0, 0, 0⟩ rfl
    (by norm_num [ReadNoise.Valid]) (by norm_num [fallbackLatest])

/-- Well-formedness of a history entry: bounded pressure, flow and vibration,
and a present, bounded temperature. Every seeded entry and every tick-appended
entry satisfies it. -/
def DataPoint.WF (d : DataPoint) : Prop :=
  0 ≤ d.pressure ∧ d.pressure ≤ 100 ∧
  0 ≤ d.flow ∧ d.flow ≤ 100 ∧
  (∃ τ, d.temp = some τ ∧ 0 ≤ τ ∧ τ ≤ 50) ∧
  0 ≤ d.vibration ∧ d.vibration ≤ 1

theorem initDataPoint_WF (t : String) (r1 r2 : ℚ) (h1 : 0 ≤ r1) (h2 : r1 < 1)
    (h3 : 0 ≤ r2) (h4 : r2 < 1) : (initDataPoint t r1 r2).WF := by
  refine ⟨?_, ?_, ?_, ?_, ⟨22, rfl, by norm_num, by norm_num⟩, ?_, ?_⟩ <;>
    dsimp only [initDataPoint] <;> linarith

theorem tickDataPoint_WF (a : TickInput) (ha : a.Valid) :
    (tickDataPoint seedSegmentHealth a).WF := by
  obtain ⟨hs0, hs1, hc0, hc1, ht0, ht1, hr10, hr11, hr20, hr21⟩ := ha
  refine ⟨?_, ?_, ?_, ?_, ⟨22 + a.s2, rfl, by linarith, by linarith⟩, ?_, ?_⟩ <;>
    dsimp only [tickDataPoint, globalPressure, globalFlow, seedSegmentHealth] <;>
    linarith

/-- Every entry of the history stays well-formed along any event sequence, as
long as the timer inputs are admissible. -/
theorem history_WF :
    ∀ (events : List Event) (st : SimState),
      st.segmentHealth = seedSegmentHealth →
      (∀ d ∈ st.history, d.WF) →
      (∀ a : TickInput, Event.timerFire a ∈ events → a.Valid) →
      ∀ d ∈ (List.foldl step st events).history, d.WF := by
  intro events
  induction events with
  | nil =>
    intro st _ hh _
    exact hh
  | cons e rest ih =>
    intro st hsh hh hev
    rw [List.foldl_cons]
    refine ih _ ?_ ?_ ?_
    · rw [step_segmentHealth, hsh]
    · cases e with
      | setLive b => exact hh
      | timerFire a =>
        simp only [step]
        by_cases hl : st.isLive
        · rw [if_pos hl]
          intro d hd
          have hd2 : d ∈ histStep st.history (tickDataPoint st.segmentHealth a) := hd
          rw [histStep_eq_drop] at hd2
          rcases List.mem_append.mp (List.drop_subset _ _ hd2) with h | h
          · exact hh d h
          · rw [List.mem_singleton] at h
            subst h
            rw [hsh]
            exact tickDataPoint_WF a (hev a (List.mem_cons_self _ _))
        · rw [if_neg hl]
          exact hh
    · intro a ha
      exact hev a (List.mem_cons_of_mem _ ha)

/-- For every sensor id string and admissible noise, the reading derived from
a well-formed latest entry has all numeric fields within explicit finite
bounds, a present temperature, and a present corrosion value. -/
theorem reading_bounded :
    ∀ (sid : String) (hist : List DataPoint) (nz : ReadNoise),
      nz.Valid → (latestOf hist).WF →
      (-3 ≤ (getSensorReading sid hist nz).pressure ∧
        (getSensorReading sid hist nz).pressure ≤ 101) ∧
      (0 ≤ (getSensorReading sid hist nz).flow ∧
        (getSensorReading sid hist nz).flow ≤ 115) ∧
      (0 ≤ (getSensorReading sid hist nz).vibration ∧
        (getSensorReading sid hist nz).vibration ≤ 2) ∧
      (∃ τ, (getSensorReading sid hist nz).temp = some τ ∧ -1 ≤ τ ∧ τ ≤ 51) ∧
      (∃ c, (getSensorReading sid hist nz).corrosion = some c ∧ 0 < c ∧ c < 1) := by
  intro sid hist nz hnz hWF
  obtain ⟨hrv0, hrv1, hrt0, hrt1, hrc0, hrc1, hrp0, hrp1⟩ := hnz
  obtain ⟨hp0, hp1, hf0, hf1, ⟨τ, hτ, hτ0, hτ1⟩, hv0, hv1⟩ := hWF
  by_cases hA : sid = "SENSOR_A"
  · subst hA
    rw [reading_A_eq]
    dsimp only
    rw [hτ]
    exact ⟨⟨by linarith, by linarith⟩, ⟨by linarith, by linarith⟩,
      ⟨by linarith, by linarith⟩,
      ⟨τ + (nz.rt * 0.01 - 0.005), rfl, by linarith, by linarith⟩,
      ⟨0.042 + (nz.rc * 0.00001 - 0.000005), rfl, by linarith, by linarith⟩⟩
  by_cases hB : sid = "SENSOR_B"
  · subst hB
    rw [reading_B_eq]
    dsimp only
    rw [hτ]
    exact ⟨⟨by linarith, by linarith⟩, ⟨by linarith, by linarith⟩,
      ⟨by linarith, by linarith⟩,
      ⟨τ + (nz.rt * 0.01 - 0.005), rfl, by linarith, by linarith⟩,
      ⟨0.045 + (nz.rc * 0.00001 - 0.000005), rfl, by linarith, by linarith⟩⟩
  by_cases hC : sid = "SENSOR_C"
  · subst hC
    rw [reading_C_eq]
    dsimp only
    rw [hτ]
    exact ⟨⟨by linarith, by linarith⟩, ⟨by linarith, by linarith⟩,
      ⟨by linarith, by linarith⟩,
      ⟨τ + (nz.rt * 0.02 - 0.01), rfl, by linarith, by linarith⟩,
      ⟨0.125 + (nz.rc * 0.00001 - 0.000005), rfl, by linarith, by linarith⟩⟩
  by_cases hD : sid = "SENSOR_D"
  · subst hD
    rw [reading_D_eq]
    dsimp only
    rw [hτ]
    exact ⟨⟨by linarith, by linarith⟩, ⟨by linarith, by linarith⟩,
      ⟨by linarith, by linarith⟩,
      ⟨τ + (nz.rt * 0.04 - 0.02), rfl, by linarith, by linarith⟩,
      ⟨0.148 + (nz.rc * 0.00001 - 0.000005), rfl, by linarith, by linarith⟩⟩
  by_cases hE : sid = "SENSOR_E"
  · subst hE
    rw [reading_E_eq]
    dsimp only
    rw [hτ]
    exact ⟨⟨by linarith, by linarith⟩, ⟨by linarith, by linarith⟩,
      ⟨by linarith, by linarith⟩,
      ⟨τ + (nz.rt * 0.01 - 0.005), rfl, by linarith, by linarith⟩,
      ⟨0.052 + (nz.rc * 0.00001 - 0.000005), rfl, by linarith, by linarith⟩⟩
  have hmem : sid ∉ INITIAL_SENSORS.map Sensor.id := by
    simp only [INITIAL_SENSORS, List.map_cons, List.map_nil, List.mem_cons,
      List.not_mem_nil, or_false]
    push_neg
    exact ⟨hA, hB, hC, hD, hE⟩
  rw [reading_unknown_eq sid hist nz hmem]
  dsimp only
  rw [hτ]
  exact ⟨⟨by linarith, by linarith⟩, ⟨by linarith, by linarith⟩,
    ⟨by linarith, by linarith⟩,
    ⟨τ + (nz.rt * 0.01 - 0.005), rfl, by linarith, by linarith⟩,
    ⟨0.05 + (nz.rc * 0.00001 - 0.000005), rfl, by linarith, by linarith⟩⟩

/-- C9: for all ticks and all admissible values of the random draws, every
numeric field of every emitted reading is a bounded (hence finite) value and
every operation of the simulated core is total: tick-appended entries and
seeded entries are well-formed, the whole history stays well-formed along any
event sequence, and `getSensorReading` from a well-formed latest entry yields
bounded fields with temperature and corrosion present. -/
theorem c9_outputs_finite_bounded :
    (∀ a : TickInput, a.Valid → (tickDataPoint seedSegmentHealth a).WF) ∧
    (∀ (t : String) (r1 r2 : ℚ),
        0 ≤ r1 → r1 < 1 → 0 ≤ r2 → r2 < 1 → (initDataPoint t r1 r2).WF) ∧
    (∀ (h0 : List DataPoint) (events : List Event),
        (∀ d ∈ h0, d.WF) →
        (∀ a : TickInput, Event.timerFire a ∈ events → a.Valid) →
        ∀ d ∈ (List.foldl step (initState h0) events).history, d.WF) ∧
    (∀ (sid : String) (hist : List DataPoint) (nz : ReadNoise),
        nz.Valid → (latestOf hist).WF →
        (-3 ≤ (getSensorReading sid hist nz).pressure ∧
          (getSensorReading sid hist nz).pressure ≤ 101) ∧
        (0 ≤ (getSensorReading sid hist nz).flow ∧
          (getSensorReading sid hist nz).flow ≤ 115) ∧
        (0 ≤ (getSensorReading sid hist nz).vibration ∧
          (getSensorReading sid hist nz).vibration ≤ 2) ∧
        (∃ τ, (getSensorReading sid hist nz).temp = some τ ∧ -1 ≤ τ ∧ τ ≤ 51) ∧
        (∃ c, (getSensorReading sid hist nz).corrosion = some c ∧ 0 < c ∧ c < 1)) :=
  ⟨tickDataPoint_WF,
   initDataPoint_WF,
   fun h0 events hh hev => history_WF events (initState h0) rfl hh hev,
   reading_bounded⟩

/-- Witness for C9 at concrete inputs: a zero-noise tick, one seeded entry,
one timer fire from the seeded state, and a SENSOR_D reading. -/
theorem c9_outputs_finite_bounded_witness :
    (tickDataPoint seedSegmentHealth
        { timeLabel := "t", s := 0, c := 0, s2 := 0, r1 := 0, r2 := 0 }).WF ∧
    (initDataPoint "t" 0 0).WF ∧
    (∀ d ∈ (List.foldl step (initState [initDataPoint "t" 0 0])
        [Event.timerFire { timeLabel := "t", s := 0, c := 0, s2 := 0, r1 := 0, r2 := 0 }]).history,
        d.WF) ∧
    ((-3 ≤ (getSensorReading "SENSOR_D" [initDataPoint "t" 0 0] ⟨0, 0, 0, 0⟩).pressure ∧
      (getSensorReading "SENSOR_D" [initDataPoint "t" 0 0] ⟨0, 0, 0, 0⟩).pressure ≤ 101) ∧
     (0 ≤ (getSensorReading "SENSOR_D" [initDataPoint "t" 0 0] ⟨0, 0, 0, 0⟩).flow ∧
      (getSensorReading "SENSOR_D" [initDataPoint "t" 0 0] ⟨0, 0, 0, 0⟩).flow ≤ 115) ∧
     (0 ≤ (getSensorReading "SENSOR_D" [initDataPoint "t" 0 0] ⟨0, 0, 0, 0⟩).vibration ∧
      (getSensorReading "SENSOR_D" [initDataPoint "t" 0 0] ⟨0, 0, 0, 0⟩).vibration ≤ 2) ∧
     (∃ τ, (getSensorReading "SENSOR_D" [initDataPoint "t" 0 0] ⟨0, 0, 0, 0⟩).temp = some τ ∧
        -1 ≤ τ ∧ τ ≤ 51) ∧
     (∃ c, (getSensorReading "SENSOR_D" [initDataPoint "t" 0 0] ⟨0, 0, 0, 0⟩).corrosion = some c ∧
        0 < c ∧ c < 1)) :=
  ⟨c9_outputs_finite_bounded.1 _ (by norm_num [TickInput.Valid]),
   c9_outputs_finite_bounded.2.1 "t" 0 0 (by norm_num) (by norm_num) (by norm_num) (by norm_num),
   c9_outputs_finite_bounded.2.2.1 [initDataPoint "t" 0 0] _
     (by
       intro d hd
       rw [List.mem_singleton] at hd
       subst hd
       exact initDataPoint_WF "t" 0 0 (by norm_num) (by norm_num) (by norm_num) (by norm_num))
     (by
       intro a ha
       simp only [List.mem_singleton, Event.timerFire.injEq] at ha
       subst ha
       norm_num [TickInput.Valid]),
   c9_outputs_finite_bounded.2.2.2 "SENSOR_D" [initDataPoint "t" 0 0] ⟨0, 0, 0, 0⟩
     (by norm_num [ReadNoise.Valid])
     (initDataPoint_WF "t" 0 0 (by norm_num) (by norm_num) (by norm_num) (by norm_num))⟩

/-- C10: `getSensorReading` is total for an arbitrary sensor id string: an
unknown id is looked up to index -1, making the distance loss negative, so its
pressure is 0.5 higher than the latest sample before noise, with the fallback
corrosion baseline 0.05; and with an empty history the defaults
{pressure 80, flow 45, vibration 0.1} are used (the absent temp of the
fallback propagates as a non-finite value, modelled by `none`). -/
theorem c10_unknown_sensor_total (sid : String) (nz : ReadNoise)
    (hmem : sid ∉ INITIAL_SENSORS.map Sensor.id) :
    findIndex sid INITIAL_SENSORS = -1 ∧
    (∀ hist : List DataPoint,
        (getSensorReading sid hist nz).pressure =
          (latestOf hist).pressure + 0.5 + (nz.rp * 0.2 - 0.1) ∧
        (getSensorReading sid hist nz).corrosion =
          some (0.05 + (nz.rc * 0.00001 - 0.000005))) ∧
    ((getSensorReading sid [] nz).pressure = 80 + 0.5 + (nz.rp * 0.2 - 0.1) ∧
     (getSensorReading sid [] nz).flow = 45 ∧
     (getSensorReading sid [] nz).vibration = 0.1 + nz.rv * 0.005 ∧
     (getSensorReading sid [] nz).temp = none) := by
  have hids : ∀ s ∈ INITIAL_SENSORS, s.id ≠ sid := fun s hs he =>
    hmem (List.mem_map.mpr ⟨s, hs, he⟩)
  refine ⟨findIndex_eq_neg_one _ _ hids, ?_, ?_⟩
  · intro hist
    rw [reading_unknown_eq sid hist nz hmem]
    exact ⟨rfl, rfl⟩
  · rw [reading_unknown_eq sid [] nz hmem]
    exact ⟨rfl, rfl, rfl, rfl⟩

/-- Witness for C10 at the concrete unknown id SENSOR_X and zero noise. -/
theorem c10_unknown_sensor_total_witness :
    findIndex "SENSOR_X" INITIAL_SENSORS = -1 ∧
    (∀ hist : List DataPoint,
        (getSensorReading "SENSOR_X" hist ⟨0, 0, 0, 0⟩).pressure =
          (latestOf hist).pressure + 0.5 + ((⟨0, 0, 0, 0⟩ : ReadNoise).rp * 0.2 - 0.1) ∧
        (getSensorReading "SENSOR_X" hist ⟨0, 0, 0, 0⟩).corrosion =
          some (0.05 + ((⟨0, 0, 0, 0⟩ : ReadNoise).rc * 0.00001 - 0.000005))) ∧
    ((getSensorReading "SENSOR_X" [] ⟨0, 0, 0, 0⟩).pressure =
        80 + 0.5 + ((⟨0, 0, 0, 0⟩ : ReadNoise).rp * 0.2 - 0.1) ∧
     (getSensorReading "SENSOR_X" [] ⟨0, 0, 0, 0⟩).flow = 45 ∧
     (getSensorReading "SENSOR_X" [] ⟨0, 0, 0, 0⟩).vibration =
        0.1 + (⟨0, 0, 0, 0⟩ : ReadNoise).rv * 0.005 ∧
     (getSensorReading "SENSOR_X" [] ⟨0, 0, 0, 0⟩).temp = none) :=
  c10_unknown_sensor_total "SENSOR_X" ⟨0, 0, 0, 0⟩ (by simp [INITIAL_SENSORS])

end SensorSim
